import Mathlib

/-!
# flod-3dgs-demo: the `create-ksplat-flod.js` converter script and `CodebaseExplorer.findImporters`

A shallow embedding of

* `util/create-ksplat-flod.js`: the command-line script, as a function from the argument
  vector (and the collaborators it calls) to the sequence of observable calls it makes and the
  way the process ends;
* `explore_codebase.js`: the `imports` map of `CodebaseExplorer`, its update by `scanFile` and
  `findImporters`.

JavaScript strings are Lean strings (sequences of code points), `process.argv` is a
`List String`.
-/

namespace FLoD

/-! ## JavaScript built-ins used by the script -/

/-- ECMAScript `WhiteSpace` and `LineTerminator` code points: what `String.prototype.trim`
and the `TrimString` step of `parseInt` remove. -/
def isWhiteSpace (c : Char) : Bool :=
  c.toNat = 0x09 || c.toNat = 0x0A || c.toNat = 0x0B || c.toNat = 0x0C || c.toNat = 0x0D ||
  c.toNat = 0x20 || c.toNat = 0xA0 || c.toNat = 0x1680 ||
  (0x2000 ≤ c.toNat && c.toNat ≤ 0x200A) ||
  c.toNat = 0x2028 || c.toNat = 0x2029 || c.toNat = 0x202F || c.toNat = 0x205F ||
  c.toNat = 0x3000 || c.toNat = 0xFEFF

/-- Drop the leading white space of a code point list. -/
def trimStart : List Char → List Char
  | [] => []
  | c :: cs => if isWhiteSpace c then trimStart cs else c :: cs

/-- The method `String.prototype.trim`: white space removed from both ends. -/
def trim (s : String) : String :=
  ⟨(trimStart (trimStart s.data).reverse).reverse⟩

/-- The method `String.prototype.endsWith(searchString)` with the default end position. -/
def endsWith (s searchString : String) : Bool :=
  searchString.data.isSuffixOf s.data

/-- Does `needle` occur in `hay` starting at its first code point? -/
def startsWithList : List Char → List Char → Bool
  | _, [] => true
  | [], _ :: _ => false
  | h :: hs, n :: ns => h == n && startsWithList hs ns

/-- Does `needle` occur somewhere in `hay`? -/
def includesList : List Char → List Char → Bool
  | [], needle => needle.isEmpty
  | h :: hs, needle => startsWithList (h :: hs) needle || includesList hs needle

/-- The method `String.prototype.includes(searchString)` with the default start position. -/
def includes (s searchString : String) : Bool :=
  includesList s.data searchString.data

/-- Split a code point list at every occurrence of the separator code point. -/
def splitList (sep : Char) : List Char → List (List Char)
  | [] => [[]]
  | c :: cs =>
    if c = sep then [] :: splitList sep cs
    else
      match splitList sep cs with
      | [] => [[c]]
      | piece :: pieces => (c :: piece) :: pieces

/-- The call `split` of line 17, on the separator comma. -/
def splitComma (s : String) : List String :=
  (splitList ',' s.data).map String.mk

/-- The Number values `parseInt` can return: `NaN`, the two infinities, and the integers
`±mag` that are binary64 values (`fin true 0` is `-0`). -/
inductive JSNumber where
  | nan
  | inf (neg : Bool)
  | fin (neg : Bool) (mag : Nat)
  deriving DecidableEq

namespace JSNumber

/-- The Number value of a natural number literal of the script (`0`, `1`, `4`). -/
def ofNat (n : Nat) : JSNumber := fin false n

/-- The mathematical value of a finite Number. -/
def toInt? : JSNumber → Option Int
  | fin false mag => some (mag : Int)
  | fin true mag => some (-(mag : Int))
  | _ => none

/-- The relational operator `x < y` on Numbers: false as soon as an operand is `NaN`. -/
def lt : JSNumber → JSNumber → Bool
  | nan, _ => false
  | _, nan => false
  | inf true, inf true => false
  | inf true, _ => true
  | _, inf true => false
  | inf false, _ => false
  | fin _ _, inf false => true
  | fin n₁ m₁, fin n₂ m₂ =>
    decide ((if n₁ then -(m₁ : Int) else (m₁ : Int)) < (if n₂ then -(m₂ : Int) else (m₂ : Int)))

/-- The relational operator `x > y`, which ECMAScript evaluates as `y < x`. -/
def gt (x y : JSNumber) : Bool := lt y x

end JSNumber

/-- The Number value `𝔽(±n)` of an integer: `n` itself up to `2^53`, beyond that the nearest
binary64 value, ties to even, and an infinity from `2^1024` on. -/
def roundToDouble (neg : Bool) (n : Nat) : JSNumber :=
  if n < 2 ^ 53 then .fin neg n
  else
    let e := Nat.log2 n - 52
    let q := n / 2 ^ e
    let r := n % 2 ^ e
    let half := 2 ^ (e - 1)
    let q' := if half < r ∨ (r = half ∧ q % 2 = 1) then q + 1 else q
    let v := q' * 2 ^ e
    if v < 2 ^ 1024 then .fin neg v else .inf neg

/-- The value of a code point as a digit, letters counting from ten. -/
def digitValue (c : Char) : Option Nat :=
  if 48 ≤ c.toNat ∧ c.toNat ≤ 57 then some (c.toNat - 48)
  else if 97 ≤ c.toNat ∧ c.toNat ≤ 122 then some (c.toNat - 87)
  else if 65 ≤ c.toNat ∧ c.toNat ≤ 90 then some (c.toNat - 55)
  else none

/-- The longest prefix of radix-`R` digits, as digit values (step 9 and 10 of `parseInt`). -/
def takeDigits (R : Nat) : List Char → List Nat
  | [] => []
  | c :: cs =>
    match digitValue c with
    | some d => if d < R then d :: takeDigits R cs else []
    | none => []

/-- The integer written by a digit list in radix `R`. -/
def mathInt (R : Nat) (ds : List Nat) : Nat :=
  ds.foldl (fun acc d => acc * R + d) 0

/-- Remove one leading sign (step 4 of `parseInt`). -/
def dropSign : List Char → List Char
  | '+' :: cs => cs
  | '-' :: cs => cs
  | cs => cs

/-- The radix and the remaining input after the optional `0x`/`0X` prefix (step 8). -/
def stripRadixPrefix : List Char → Nat × List Char
  | '0' :: 'x' :: cs => (16, cs)
  | '0' :: 'X' :: cs => (16, cs)
  | cs => (10, cs)

/-- The global `parseInt(string)` called without a radix: leading white space is skipped, then
an optional sign, an optional `0x` prefix, and the longest run of digits is read; `NaN` when
that run is empty. (Beyond 20 significant decimal digits ECMAScript lets an implementation
approximate; this is the exactly rounded value.) -/
def parseInt (s : String) : JSNumber :=
  let S := trimStart s.data
  let neg := S.head? == some '-'
  let S := dropSign S
  let (R, S) := stripRadixPrefix S
  let Z := takeDigits R S
  if Z.isEmpty then .nan else roundToDouble neg (mathInt R Z)

/-! ## The collaborators of `create-ksplat-flod.js` -/

/-- An `ArrayBuffer`: a sequence of bytes. -/
abbrev ArrayBuffer := List Nat

/-- A Node.js `Buffer`: a window of `length` bytes at `byteOffset` of its backing
`ArrayBuffer` (the property `.buffer`). -/
structure NodeBuffer where
  buffer : ArrayBuffer
  byteOffset : Nat
  length : Nat
  deriving DecidableEq

/-- The bytes a `Buffer` holds, which is what `fs.writeFileSync` writes. -/
def NodeBuffer.bytes (b : NodeBuffer) : List Nat :=
  (b.buffer.drop b.byteOffset).take b.length

/-- The call `Buffer.from(arrayBuffer)`: a view of the whole `ArrayBuffer`, no copy. -/
def bufferFrom (arrayBuffer : ArrayBuffer) : NodeBuffer :=
  { buffer := arrayBuffer, byteOffset := 0, length := arrayBuffer.length }

/-- A thrown JavaScript exception. -/
structure JSError where
  message : String
  deriving DecidableEq

/-- The part of a `SplatBuffer` the script reads: its `bufferData`. -/
structure SplatBuffer where
  bufferData : ArrayBuffer
  deriving DecidableEq

/-- The object returned by `SplatBufferGenerator.getStandardGenerator`, with the one method the
script calls; `A` is the type of uncompressed splat arrays. -/
structure Generator (A : Type) where
  generateFromUncompressedSplatArray : A → Except JSError SplatBuffer

/-- Everything the script calls that is defined outside it: the file system, the parser
`FLoDPlyParser`, the generator factory of `GaussianSplats3D`, `THREE.Vector3`, and the
built-ins `String.prototype.toLowerCase` and `parseFloat`. `F` is the type of the Numbers
`parseFloat` returns, `V` the type of `THREE.Vector3` objects, `A` the type of uncompressed splat
arrays. A call that throws returns `Except.error`; an omitted or `undefined` argument is
`none`. -/
structure Env (F V A : Type) where
  toLowerCase : String → String
  parseFloat : String → F
  vector3FromArray : List String → V
  readFileSync : String → Except JSError NodeBuffer
  parseToUncompressedSplatArray :
    ArrayBuffer → Option JSNumber → JSNumber → Except JSError A
  getStandardGenerator :
    Option JSNumber → Option JSNumber → JSNumber → Option V → Option F → Option JSNumber →
      Except JSError (Generator A)
  writeFileSync : String → NodeBuffer → Except JSError Unit

/-- The observable calls of a run, with their arguments, in the order they are made. -/
inductive Event (F V A : Type) where
  | log (message : String)
  | readFileSync (path : String)
  | parseToUncompressedSplatArray (fileBufferData : ArrayBuffer)
      (outSphericalHarmonicsDegree : Option JSNumber) (lodLevel : JSNumber)
  | getStandardGenerator (alphaRemovalThreshold compressionLevel : Option JSNumber)
      (sectionSize : JSNumber) (sceneCenter : Option V) (blockSize : Option F)
      (bucketSize : Option JSNumber)
  | generateFromUncompressedSplatArray (splatArray : A)
  | writeFileSync (path : String) (data : NodeBuffer)
  deriving DecidableEq

/-- How the process ends: `process.exit(code)`, an uncaught exception, or the end of the
script (exit code 0). -/
inductive Outcome where
  | exit (code : Nat)
  | threw (e : JSError)
  | completed
  deriving DecidableEq

/-- A run of the script: the calls it made and how it ended. -/
structure Run (F V A : Type) where
  trace : List (Event F V A)
  outcome : Outcome

/-! ## The script `create-ksplat-flod.js` -/

/-- The element `process.argv[i]`. Every use below is guarded by a test on `argv.length`, so
the default is never taken. -/
def arg (argv : List String) (i : Nat) : String :=
  argv.getD i ""

/-- The first line printed on the argument-count error. -/
def expectedMessage : String := "Expected at least 4 arguments!"

/-- The usage line. -/
def usageMessage : String :=
  "Usage: node create-ksplat-flod.js [path to .PLY] [output file name] [LOD level (1-4)] [compression level = 0] [alpha removal threshold = 1] [scene center = \"0,0,0\"] [block size = 5.0] [bucket size = 256] [spherical harmonics level = 0]"

/-- The LOD-range error message. -/
def lodMessage : String := "Error: LOD level must be between 1 and 4"

/-- The input-format error message. -/
def formatMessage : String := "Error: Input file must be a .PLY file"

/-- The test of line 24: `lodLevel < 1 || lodLevel > 4`. -/
def lodOutOfRange (lodLevel : JSNumber) : Bool :=
  lodLevel.lt (.ofNat 1) || lodLevel.gt (.ofNat 4)

variable {F V A : Type}

/-- The function `fileBufferToSplatBuffer` of the script (lines 42-57). The top-level
constants it reads (`outSphericalHarmonicsDegree`, `sectionSize`, `sceneCenter`, `blockSize`,
`bucketSize`) come first. Returns the calls made and the buffer, or the exception thrown. -/
def fileBufferToSplatBuffer (env : Env F V A)
    (outSphericalHarmonicsDegree : Option JSNumber) (sectionSize : JSNumber)
    (sceneCenter : Option V) (blockSize : Option F) (bucketSize : Option JSNumber)
    (fileBufferData : ArrayBuffer) (compressionLevel alphaRemovalThreshold : Option JSNumber)
    (lodLevel : JSNumber) : List (Event F V A) × Except JSError SplatBuffer :=
  let parseCall : Event F V A :=
    .parseToUncompressedSplatArray fileBufferData outSphericalHarmonicsDegree lodLevel
  match env.parseToUncompressedSplatArray fileBufferData outSphericalHarmonicsDegree lodLevel with
  | .error e => ([parseCall], .error e)
  | .ok splatArray =>
    let factoryCall : Event F V A :=
      .getStandardGenerator alphaRemovalThreshold compressionLevel sectionSize sceneCenter
        blockSize bucketSize
    match env.getStandardGenerator alphaRemovalThreshold compressionLevel sectionSize sceneCenter
        blockSize bucketSize with
    | .error e => ([parseCall, factoryCall], .error e)
    | .ok splatBufferGenerator =>
      let generateCall : Event F V A := .generateFromUncompressedSplatArray splatArray
      match splatBufferGenerator.generateFromUncompressedSplatArray splatArray with
      | .error e => ([parseCall, factoryCall, generateCall], .error e)
      | .ok splatBuffer => ([parseCall, factoryCall, generateCall], .ok splatBuffer)

/-- The top level of the script (lines 6-40), run on `process.argv`. -/
def main (env : Env F V A) (argv : List String) : Run F V A :=
  if argv.length < 5 then
    { trace := [.log expectedMessage, .log usageMessage], outcome := .exit 1 }
  else
    let intputFile := arg argv 2
    let outputFile := arg argv 3
    let lodLevel := parseInt (arg argv 4)
    let compressionLevel := if 6 ≤ argv.length then some (parseInt (arg argv 5)) else none
    let splatAlphaRemovalThreshold :=
      if 7 ≤ argv.length then some (parseInt (arg argv 6)) else none
    let sceneCenter :=
      if 8 ≤ argv.length then some (env.vector3FromArray (splitComma (arg argv 7))) else none
    let blockSize := if 9 ≤ argv.length then some (env.parseFloat (arg argv 8)) else none
    let bucketSize := if 10 ≤ argv.length then some (parseInt (arg argv 9)) else none
    let outSphericalHarmonicsDegree :=
      if 11 ≤ argv.length then some (parseInt (arg argv 10)) else none
    let sectionSize := JSNumber.ofNat 0
    if lodOutOfRange lodLevel then
      { trace := [.log lodMessage], outcome := .exit 1 }
    else
      match env.readFileSync intputFile with
      | .error e => { trace := [.readFileSync intputFile], outcome := .threw e }
      | .ok fileData =>
        let path := trim (env.toLowerCase intputFile)
        if !endsWith path ".ply" then
          { trace := [.readFileSync intputFile, .log formatMessage], outcome := .exit 1 }
        else
          match fileBufferToSplatBuffer env outSphericalHarmonicsDegree sectionSize sceneCenter
              blockSize bucketSize fileData.buffer compressionLevel splatAlphaRemovalThreshold
              lodLevel with
          | (calls, .error e) =>
            { trace := .readFileSync intputFile :: calls, outcome := .threw e }
          | (calls, .ok splatBuffer) =>
            let writeCall : Event F V A :=
              .writeFileSync outputFile (bufferFrom splatBuffer.bufferData)
            match env.writeFileSync outputFile (bufferFrom splatBuffer.bufferData) with
            | .error e =>
              { trace := .readFileSync intputFile :: calls ++ [writeCall], outcome := .threw e }
            | .ok _ =>
              { trace := .readFileSync intputFile :: calls ++ [writeCall],
                outcome := .completed }

/-! ### Reading a trace -/

/-- The arguments of the parser calls of a trace. -/
def parserCalls : List (Event F V A) → List (ArrayBuffer × Option JSNumber × JSNumber)
  | [] => []
  | .parseToUncompressedSplatArray b sh lod :: es => (b, sh, lod) :: parserCalls es
  | _ :: es => parserCalls es

/-- The arguments of a call of the generator factory. -/
structure FactoryArgs (F V : Type) where
  alphaRemovalThreshold : Option JSNumber
  compressionLevel : Option JSNumber
  sectionSize : JSNumber
  sceneCenter : Option V
  blockSize : Option F
  bucketSize : Option JSNumber

/-- The arguments of the factory calls of a trace. -/
def factoryCalls : List (Event F V A) → List (FactoryArgs F V)
  | [] => []
  | .getStandardGenerator a c s v b k :: es => ⟨a, c, s, v, b, k⟩ :: factoryCalls es
  | _ :: es => factoryCalls es

/-- The splat arrays handed to `generateFromUncompressedSplatArray` in a trace. -/
def generateCalls : List (Event F V A) → List A
  | [] => []
  | .generateFromUncompressedSplatArray a :: es => a :: generateCalls es
  | _ :: es => generateCalls es

/-- The paths read in a trace. -/
def readCalls : List (Event F V A) → List String
  | [] => []
  | .readFileSync p :: es => p :: readCalls es
  | _ :: es => readCalls es

/-- The writes of a trace: path and data. -/
def writeCalls : List (Event F V A) → List (String × NodeBuffer)
  | [] => []
  | .writeFileSync p d :: es => (p, d) :: writeCalls es
  | _ :: es => writeCalls es

/-- The messages printed in a trace. -/
def logged : List (Event F V A) → List String
  | [] => []
  | .log m :: es => m :: logged es
  | _ :: es => logged es

/-! ### A concrete set of collaborators, to run the script on examples -/

/-- A file system with two readable files, an ASCII `toLowerCase`, a parser that returns the
bytes it is given, a factory whose generator returns them as `bufferData`; the Numbers of
`parseFloat` are read with `parseInt` (the examples use integer numerals there) and a
`Vector3` is the array it was filled from. Every read returns a `Buffer` that spans an
`ArrayBuffer` of its own, which Node.js does for large files only; `pooledEnv` below has
the read of a small file. -/
def demoEnv : Env JSNumber (List String) ArrayBuffer where
  toLowerCase := fun s => ⟨s.data.map Char.toLower⟩
  parseFloat := parseInt
  vector3FromArray := fun components => components
  readFileSync := fun p =>
    if p = "scene.ply" ∨ p = "Scene.PLY " ∨ p = "notes.txt" then
      .ok { buffer := [112, 108, 121], byteOffset := 0, length := 3 }
    else .error ⟨"ENOENT"⟩
  parseToUncompressedSplatArray := fun bytes _ _ => .ok bytes
  getStandardGenerator := fun _ _ _ _ _ _ =>
    .ok { generateFromUncompressedSplatArray := fun a => .ok ⟨a⟩ }
  writeFileSync := fun _ _ => .ok ()

/-- What `fs.readFileSync` returns in Node.js for a file of the three bytes 112, 108, 121: the
`Buffer` of a file shorter than 4096 bytes is allocated from the shared pool, so it is a
window of 3 bytes, here at offset 1808, of an `ArrayBuffer` of 8192 bytes. -/
def pooledRead : NodeBuffer :=
  { buffer := List.replicate 1808 0 ++ [112, 108, 121] ++ List.replicate 6381 0
    byteOffset := 1808
    length := 3 }

/-- The collaborators of `demoEnv`, with a `scene.ply` of three bytes read as Node.js reads a
small file. -/
def pooledEnv : Env JSNumber (List String) ArrayBuffer :=
  { demoEnv with
    readFileSync := fun p => if p = "scene.ply" then .ok pooledRead else .error ⟨"ENOENT"⟩ }

/-! ## `CodebaseExplorer` of `explore_codebase.js` -/

/-- The field `imports`: a JavaScript `Map` from relative file paths to lists of import
specifiers, as its entries in insertion order. -/
abbrev ImportMap := List (String × List String)

/-- The method `Map.prototype.set`: the value of a key already present is replaced in place, a
new key is added at the end. -/
def mapSet : ImportMap → String → List String → ImportMap
  | [], key, value => [(key, value)]
  | (k, v) :: rest, key, value =>
    if k = key then (key, value) :: rest else (k, v) :: mapSet rest key value

/-- The two regular-expression matches of the import part of `scanFile`: `matchAll content` is
the result of the global match of the import pattern on the file content (`none` for `null`,
else the matched substrings), and `capture m` is group 1 of the match of the `from` pattern on
one of them (`none` when there is no match). -/
structure ImportRegex where
  matchAll : String → Option (List String)
  capture : String → Option String

/-- The callback of `.filter(Boolean)` on a string or `null`: `null` and the empty string are
dropped. -/
def truthy : Option String → Option String
  | some s => if s = "" then none else some s
  | none => none

/-- The import part of `scanFile` (lines 52-64), on the `imports` map: `relativePath` is the
path of the file relative to `src`, `content` its text. -/
def scanFile (rx : ImportRegex) (imports : ImportMap) (relativePath content : String) :
    ImportMap :=
  match rx.matchAll content with
  | none => imports
  | some importMatches =>
    mapSet imports relativePath ((importMatches.map rx.capture).filterMap truthy)

/-- The effect of `scanCodebase` on `imports`: `scanFile` on every `.js` file that
`scanDirectory` visits, in the order of the visit, starting from the empty map of the
constructor; `files` are those files as (relative path, content). -/
def scanCodebase (rx : ImportRegex) (files : List (String × String)) : ImportMap :=
  files.foldl (fun imports file => scanFile rx imports file.1 file.2) []

/-- The method `findImporters(moduleName)` (lines 98-106). -/
def findImporters (imports : ImportMap) (moduleName : String) : List String :=
  imports.foldl
    (fun importers entry =>
      if entry.2.any (fun imp => includes imp moduleName) then importers ++ [entry.1]
      else importers)
    []

/-- The reading under which an import specifier names a module: it is the module name, or a
path whose last segment is the module name. -/
def denotesModule (specifier moduleName : String) : Bool :=
  specifier = moduleName ||
    (splitList '/' specifier.data).getLast? = some moduleName.data

/-! ## Decimal numerals and example inputs -/

/-- Is the code point one of `0` to `9`? -/
def isDecimalDigit (c : Char) : Bool :=
  decide (48 ≤ c.toNat) && decide (c.toNat ≤ 57)

/-- The natural number written by a list of decimal digits. -/
def decimalValue (cs : List Char) : Nat :=
  cs.foldl (fun acc c => acc * 10 + (c.toNat - 48)) 0

/-- The value of a decimal numeral `digits` or `digits.digits`, as a mantissa and the number
of fraction digits: the numeral denotes `mantissa / 10 ^ scale`. -/
def decimalNumeral (s : String) : Option (Nat × Nat) :=
  match splitList '.' s.data with
  | [ip] =>
    if !ip.isEmpty && ip.all isDecimalDigit then some (decimalValue ip, 0) else none
  | [ip, fp] =>
    if !ip.isEmpty && !fp.isEmpty && ip.all isDecimalDigit && fp.all isDecimalDigit then
      some (decimalValue (ip ++ fp), fp.length)
    else none
  | _ => none

/-- Is the Number `x` the decimal fraction `mantissa / 10 ^ scale`? -/
def JSNumber.isDecimal (x : JSNumber) (mantissa scale : Nat) : Bool :=
  match x with
  | .fin false n => n * 10 ^ scale == mantissa
  | .fin true n => n == 0 && mantissa == 0
  | _ => false

/-- The argument vector of the end-to-end example: LOD 4, compression 1, alpha removal
threshold 0.01, block size 5, bucket size 256, spherical-harmonics degree 0. -/
def exampleArgv : List String :=
  ["node", "create-ksplat-flod.js", "scene.ply", "out.ksplat", "4", "1", "0.01", "0,0,0", "5",
    "256", "0"]

/-- An argument vector with the three required arguments only. -/
def requiredArgv : List String :=
  ["node", "create-ksplat-flod.js", "scene.ply", "out.ksplat", "2"]

/-! ## Names for the runs and calls of the script, used to state the lemmas -/

section Script

variable {F V A : Type}

/-- The run that ends on the argument-count error. -/
def usageRun : Run F V A :=
  { trace := [.log expectedMessage, .log usageMessage], outcome := .exit 1 }

/-- The run that ends on the LOD-range error. -/
def lodRun : Run F V A :=
  { trace := [.log lodMessage], outcome := .exit 1 }

/-- The run that ends on the input-format error, after the read of `intputFile`. -/
def formatRun (intputFile : String) : Run F V A :=
  { trace := [.readFileSync intputFile, .log formatMessage], outcome := .exit 1 }

/-- The optional command-line values of lines 15-20. -/
structure Options (F V : Type) where
  compressionLevel : Option JSNumber
  splatAlphaRemovalThreshold : Option JSNumber
  sceneCenter : Option V
  blockSize : Option F
  bucketSize : Option JSNumber
  outSphericalHarmonicsDegree : Option JSNumber

/-- Lines 15-20 of the script, as `main` computes them. -/
def readOptions (env : Env F V A) (argv : List String) : Options F V :=
  { compressionLevel := if 6 ≤ argv.length then some (parseInt (arg argv 5)) else none
    splatAlphaRemovalThreshold := if 7 ≤ argv.length then some (parseInt (arg argv 6)) else none
    sceneCenter :=
      if 8 ≤ argv.length then some (env.vector3FromArray (splitComma (arg argv 7))) else none
    blockSize := if 9 ≤ argv.length then some (env.parseFloat (arg argv 8)) else none
    bucketSize := if 10 ≤ argv.length then some (parseInt (arg argv 9)) else none
    outSphericalHarmonicsDegree :=
      if 11 ≤ argv.length then some (parseInt (arg argv 10)) else none }

/-- The parser call of line 46 as `main` makes it on the file data read. -/
def parseResult (env : Env F V A) (argv : List String) (fileData : NodeBuffer) :
    Except JSError A :=
  env.parseToUncompressedSplatArray fileData.buffer
    (readOptions env argv).outSphericalHarmonicsDegree (parseInt (arg argv 4))

/-- The event of that parser call. -/
def parseEvent (env : Env F V A) (argv : List String) (fileData : NodeBuffer) : Event F V A :=
  .parseToUncompressedSplatArray fileData.buffer
    (readOptions env argv).outSphericalHarmonicsDegree (parseInt (arg argv 4))

/-- The factory call of lines 51-53 as `main` makes it. -/
def factoryResult (env : Env F V A) (argv : List String) : Except JSError (Generator A) :=
  env.getStandardGenerator (readOptions env argv).splatAlphaRemovalThreshold
    (readOptions env argv).compressionLevel (.ofNat 0) (readOptions env argv).sceneCenter
    (readOptions env argv).blockSize (readOptions env argv).bucketSize

/-- The event of that factory call. -/
def factoryEvent (env : Env F V A) (argv : List String) : Event F V A :=
  .getStandardGenerator (readOptions env argv).splatAlphaRemovalThreshold
    (readOptions env argv).compressionLevel (.ofNat 0) (readOptions env argv).sceneCenter
    (readOptions env argv).blockSize (readOptions env argv).bucketSize

/-- The event of the write of line 40. -/
def writeEvent (argv : List String) (splatBuffer : SplatBuffer) : Event F V A :=
  .writeFileSync (arg argv 3) (bufferFrom splatBuffer.bufferData)

/-- The outcome of a run that reached the write of line 40. -/
def writeOutcome (env : Env F V A) (argv : List String) (splatBuffer : SplatBuffer) : Outcome :=
  match env.writeFileSync (arg argv 3) (bufferFrom splatBuffer.bufferData) with
  | .error e => .threw e
  | .ok _ => .completed

/-- The eight ways a run of the script can go, each with the run it produces. -/
inductive Path (env : Env F V A) (argv : List String) : Run F V A → Prop where
  | usage (hlen : argv.length < 5) : Path env argv usageRun
  | lod (hlen : 5 ≤ argv.length) (hlod : lodOutOfRange (parseInt (arg argv 4)) = true) :
      Path env argv lodRun
  | readError (e : JSError) (hlen : 5 ≤ argv.length)
      (hlod : lodOutOfRange (parseInt (arg argv 4)) = false)
      (hread : env.readFileSync (arg argv 2) = .error e) :
      Path env argv { trace := [.readFileSync (arg argv 2)], outcome := .threw e }
  | format (fileData : NodeBuffer) (hlen : 5 ≤ argv.length)
      (hlod : lodOutOfRange (parseInt (arg argv 4)) = false)
      (hread : env.readFileSync (arg argv 2) = .ok fileData)
      (hext : endsWith (trim (env.toLowerCase (arg argv 2))) ".ply" = false) :
      Path env argv (formatRun (arg argv 2))
  | parseError (fileData : NodeBuffer) (e : JSError) (hlen : 5 ≤ argv.length)
      (hlod : lodOutOfRange (parseInt (arg argv 4)) = false)
      (hread : env.readFileSync (arg argv 2) = .ok fileData)
      (hext : endsWith (trim (env.toLowerCase (arg argv 2))) ".ply" = true)
      (hparse : parseResult env argv fileData = .error e) :
      Path env argv
        { trace := [.readFileSync (arg argv 2), parseEvent env argv fileData],
          outcome := .threw e }
  | factoryError (fileData : NodeBuffer) (splatArray : A) (e : JSError)
      (hlen : 5 ≤ argv.length) (hlod : lodOutOfRange (parseInt (arg argv 4)) = false)
      (hread : env.readFileSync (arg argv 2) = .ok fileData)
      (hext : endsWith (trim (env.toLowerCase (arg argv 2))) ".ply" = true)
      (hparse : parseResult env argv fileData = .ok splatArray)
      (hfactory : factoryResult env argv = .error e) :
      Path env argv
        { trace := [.readFileSync (arg argv 2), parseEvent env argv fileData,
            factoryEvent env argv],
          outcome := .threw e }
  | generateError (fileData : NodeBuffer) (splatArray : A) (generator : Generator A)
      (e : JSError) (hlen : 5 ≤ argv.length)
      (hlod : lodOutOfRange (parseInt (arg argv 4)) = false)
      (hread : env.readFileSync (arg argv 2) = .ok fileData)
      (hext : endsWith (trim (env.toLowerCase (arg argv 2))) ".ply" = true)
      (hparse : parseResult env argv fileData = .ok splatArray)
      (hfactory : factoryResult env argv = .ok generator)
      (hgen : generator.generateFromUncompressedSplatArray splatArray = .error e) :
      Path env argv
        { trace := [.readFileSync (arg argv 2), parseEvent env argv fileData,
            factoryEvent env argv, .generateFromUncompressedSplatArray splatArray],
          outcome := .threw e }
  | written (fileData : NodeBuffer) (splatArray : A) (generator : Generator A)
      (splatBuffer : SplatBuffer) (hlen : 5 ≤ argv.length)
      (hlod : lodOutOfRange (parseInt (arg argv 4)) = false)
      (hread : env.readFileSync (arg argv 2) = .ok fileData)
      (hext : endsWith (trim (env.toLowerCase (arg argv 2))) ".ply" = true)
      (hparse : parseResult env argv fileData = .ok splatArray)
      (hfactory : factoryResult env argv = .ok generator)
      (hgen : generator.generateFromUncompressedSplatArray splatArray = .ok splatBuffer) :
      Path env argv
        { trace := [.readFileSync (arg argv 2), parseEvent env argv fileData,
            factoryEvent env argv, .generateFromUncompressedSplatArray splatArray,
            writeEvent argv splatBuffer],
          outcome := writeOutcome env argv splatBuffer }

end Script

/-! ## Lemmas on the script -/

section ScriptLemmas

variable {F V A : Type}

/-- Every run of the script follows one of the eight paths. -/
theorem main_path (env : Env F V A) (argv : List String) : Path env argv (main env argv) := by
  by_cases hlen : argv.length < 5
  · have h : main env argv = usageRun := by simp [main, usageRun, hlen]
    rw [h]; exact .usage hlen
  have hlen5 : 5 ≤ argv.length := by omega
  cases hlod : lodOutOfRange (parseInt (arg argv 4))
  swap
  · have h : main env argv = lodRun := by simp [main, lodRun, hlen, hlod]
    rw [h]; exact .lod hlen5 hlod
  cases hread : env.readFileSync (arg argv 2) with
  | error e =>
    have h : main env argv = { trace := [.readFileSync (arg argv 2)], outcome := .threw e } := by
      simp [main, hlen, hlod, hread]
    rw [h]; exact .readError e hlen5 hlod hread
  | ok fileData =>
    cases hext : endsWith (trim (env.toLowerCase (arg argv 2))) ".ply"
    · have h : main env argv = formatRun (arg argv 2) := by
        simp [main, formatRun, hlen, hlod, hread, hext]
      rw [h]; exact .format fileData hlen5 hlod hread hext
    cases hparse : parseResult env argv fileData with
    | error e =>
      have hparse' := hparse
      simp only [parseResult, readOptions] at hparse'
      have h : main env argv =
          { trace := [.readFileSync (arg argv 2), parseEvent env argv fileData],
            outcome := .threw e } := by
        simp [main, hlen, hlod, hread, hext, fileBufferToSplatBuffer, hparse', parseEvent,
          readOptions]
      rw [h]; exact .parseError fileData e hlen5 hlod hread hext hparse
    | ok splatArray =>
      have hparse' := hparse
      simp only [parseResult, readOptions] at hparse'
      cases hfactory : factoryResult env argv with
      | error e =>
        have hfactory' := hfactory
        simp only [factoryResult, readOptions] at hfactory'
        have h : main env argv =
            { trace := [.readFileSync (arg argv 2), parseEvent env argv fileData,
                factoryEvent env argv],
              outcome := .threw e } := by
          simp [main, hlen, hlod, hread, hext, fileBufferToSplatBuffer, hparse', hfactory',
            parseEvent, factoryEvent, readOptions]
        rw [h]; exact .factoryError fileData splatArray e hlen5 hlod hread hext hparse hfactory
      | ok generator =>
        have hfactory' := hfactory
        simp only [factoryResult, readOptions] at hfactory'
        cases hgen : generator.generateFromUncompressedSplatArray splatArray with
        | error e =>
          have h : main env argv =
              { trace := [.readFileSync (arg argv 2), parseEvent env argv fileData,
                  factoryEvent env argv, .generateFromUncompressedSplatArray splatArray],
                outcome := .threw e } := by
            simp [main, hlen, hlod, hread, hext, fileBufferToSplatBuffer, hparse', hfactory',
              hgen, parseEvent, factoryEvent, readOptions]
          rw [h]
          exact .generateError fileData splatArray generator e hlen5 hlod hread hext hparse
            hfactory hgen
        | ok splatBuffer =>
          have h : main env argv =
              { trace := [.readFileSync (arg argv 2), parseEvent env argv fileData,
                  factoryEvent env argv, .generateFromUncompressedSplatArray splatArray,
                  writeEvent argv splatBuffer],
                outcome := writeOutcome env argv splatBuffer } := by
            simp only [main, hlen, hlod, hread, hext, fileBufferToSplatBuffer, hparse',
              hfactory', hgen, parseEvent, factoryEvent, readOptions, writeEvent, writeOutcome]
            cases env.writeFileSync (arg argv 3) (bufferFrom splatBuffer.bufferData) <;> simp
          rw [h]
          exact .written fileData splatArray generator splatBuffer hlen5 hlod hread hext hparse
            hfactory hgen

theorem main_of_few (env : Env F V A) (argv : List String) (h : argv.length < 5) :
    main env argv = usageRun := by
  simp [main, usageRun, h]

theorem main_of_lod (env : Env F V A) (argv : List String) (hlen : 5 ≤ argv.length)
    (hlod : lodOutOfRange (parseInt (arg argv 4)) = true) : main env argv = lodRun := by
  have h : ¬ argv.length < 5 := by omega
  simp [main, lodRun, h, hlod]

/-- An optional argument is read exactly when the argument vector has an entry there. -/
theorem option_of_length {β : Type} (f : String → β) (argv : List String) (i : Nat) :
    (if i + 1 ≤ argv.length then some (f (arg argv i)) else none) = argv[i]?.map f := by
  by_cases h : i < argv.length
  · have h' : i + 1 ≤ argv.length := h
    simp [arg, h, h', List.getD_eq_getElem?_getD]
  · have h' : ¬ i + 1 ≤ argv.length := h
    have hle : argv.length ≤ i := by omega
    rw [if_neg h', List.getElem?_eq_none hle]
    rfl

/-- A `Buffer` that spans its whole `ArrayBuffer` holds exactly the bytes of it. -/
theorem whole_buffer_bytes (b : NodeBuffer) (hoff : b.byteOffset = 0)
    (hlen : b.length = b.buffer.length) : b.buffer = b.bytes := by
  simp [NodeBuffer.bytes, hoff, hlen]

theorem usageMessage_ne_lodMessage : usageMessage ≠ lodMessage := by decide

theorem usageMessage_ne_formatMessage : usageMessage ≠ formatMessage := by decide

theorem expectedMessage_ne_lodMessage : expectedMessage ≠ lodMessage := by decide

theorem expectedMessage_ne_formatMessage : expectedMessage ≠ formatMessage := by decide

theorem formatMessage_ne_lodMessage : formatMessage ≠ lodMessage := by decide

end ScriptLemmas

section Numerals

theorem splitList_ne_nil (sep : Char) (cs : List Char) : splitList sep cs ≠ [] := by
  cases cs with
  | nil => simp [splitList]
  | cons c cs =>
    unfold splitList
    split
    · simp
    · split <;> simp

theorem splitList_singleton (sep : Char) :
    ∀ (cs ip : List Char), splitList sep cs = [ip] → ip = cs := by
  intro cs
  induction cs with
  | nil => intro ip h; simpa [splitList] using h.symm
  | cons c cs ih =>
    intro ip h
    unfold splitList at h
    split at h
    · simp at h
      exact absurd h.2 (splitList_ne_nil sep cs)
    · split at h
      · rename_i h0
        exact absurd h0 (splitList_ne_nil sep cs)
      · rename_i piece pieces hp
        simp at h
        obtain ⟨h1, h2⟩ := h
        subst h2
        rw [← h1, ih piece hp]

theorem takeDigits_decimal (cs : List Char) (h : cs.all isDecimalDigit = true) :
    takeDigits 10 cs = cs.map (fun c => c.toNat - 48) := by
  induction cs with
  | nil => rfl
  | cons c cs ih =>
    simp only [List.all_cons, Bool.and_eq_true] at h
    obtain ⟨hc, hcs⟩ := h
    simp only [isDecimalDigit, Bool.and_eq_true, decide_eq_true_eq] at hc
    have hd : digitValue c = some (c.toNat - 48) := by simp [digitValue, hc]
    have hlt : c.toNat - 48 < 10 := by omega
    simp [takeDigits, hd, hlt, ih hcs]

theorem mathInt_map (cs : List Char) :
    mathInt 10 (cs.map (fun c => c.toNat - 48)) = decimalValue cs := by
  simp [mathInt, decimalValue, List.foldl_map]

theorem trimStart_digit (c : Char) (cs : List Char) (hc : isDecimalDigit c = true) :
    trimStart (c :: cs) = c :: cs := by
  simp only [isDecimalDigit, Bool.and_eq_true, decide_eq_true_eq] at hc
  have : isWhiteSpace c = false := by
    simp only [isWhiteSpace, Bool.or_eq_false_iff, Bool.and_eq_false_iff, decide_eq_false_iff_not]
    omega
  simp [trimStart, this]

theorem dropSign_digit (c : Char) (cs : List Char) (hc : isDecimalDigit c = true) :
    dropSign (c :: cs) = c :: cs := by
  simp only [isDecimalDigit, Bool.and_eq_true, decide_eq_true_eq] at hc
  unfold dropSign
  split
  · rename_i h; simp at h; rw [h.1] at hc; simp at hc
  · rename_i h; simp at h; rw [h.1] at hc; simp at hc
  · rfl

theorem stripRadixPrefix_digits (cs : List Char) (h : cs.all isDecimalDigit = true) :
    stripRadixPrefix cs = (10, cs) := by
  unfold stripRadixPrefix
  split
  · simp [isDecimalDigit] at h
  · simp [isDecimalDigit] at h
  · rfl

/-- On an unsigned integer numeral below `2^53`, `parseInt` returns the integer written. -/
theorem parseInt_of_numeral (s : String) (n : Nat) (h : decimalNumeral s = some (n, 0))
    (hn : n < 2 ^ 53) : parseInt s = .fin false n := by
  unfold decimalNumeral at h
  split at h
  · rename_i ip hsplit
    have hip := splitList_singleton '.' _ _ hsplit
    subst hip
    split at h
    · rename_i hcond
      simp only [Bool.and_eq_true, Bool.not_eq_true', List.isEmpty_eq_false] at hcond
      simp only [Option.some.injEq, Prod.mk.injEq, and_true] at h
      obtain ⟨hne, hall⟩ := hcond
      cases hs : s.data with
      | nil => simp [hs] at hne
      | cons c cs =>
        rw [hs] at hall h
        have hc : isDecimalDigit c = true := by
          simp only [List.all_cons, Bool.and_eq_true] at hall
          exact hall.1
        have hhead : ((c :: cs).head? == some '-') = false := by
          simp only [List.head?_cons, beq_eq_false_iff_ne, ne_eq, Option.some.injEq]
          intro hcc
          rw [hcc] at hc
          simp [isDecimalDigit] at hc
        have hz : takeDigits 10 (c :: cs) ≠ [] := by
          rw [takeDigits_decimal _ hall]; simp
        unfold parseInt
        simp only [hs, trimStart_digit c cs hc, dropSign_digit c cs hc,
          stripRadixPrefix_digits _ hall, hhead]
        rw [if_neg (by simpa using hz), takeDigits_decimal _ hall, mathInt_map, h]
        unfold roundToDouble
        rw [if_pos hn]
    · simp at h
  · rename_i ip fp hsplit
    split at h
    · rename_i hcond
      simp only [Bool.and_eq_true, Bool.not_eq_true', List.isEmpty_eq_false] at hcond
      simp only [Option.some.injEq, Prod.mk.injEq] at h
      have := hcond.1.1.2
      simp_all
    · simp at h
  · simp at h

end Numerals

/-! ## The claims on `create-ksplat-flod.js` -/

section ScriptClaims

variable {F V A : Type}

/-- C4: when fewer than three arguments follow the script path (`process.argv.length < 5`) the
run prints the two usage lines and exits with code 1, and has read and written nothing; when
all three are present neither usage line is printed. -/
theorem usage_exit_iff_argument_missing (env : Env F V A) (argv : List String) :
    (argv.length < 5 →
      main env argv =
          { trace := [.log expectedMessage, .log usageMessage], outcome := .exit 1 } ∧
        readCalls (main env argv).trace = [] ∧ writeCalls (main env argv).trace = []) ∧
    (5 ≤ argv.length →
      usageMessage ∉ logged (main env argv).trace ∧
        expectedMessage ∉ logged (main env argv).trace) := by
  constructor
  · intro h
    rw [main_of_few env argv h]
    simp [usageRun, readCalls, writeCalls]
  · intro h
    have hp := main_path env argv
    generalize main env argv = r at hp
    have h1 := usageMessage_ne_lodMessage
    have h2 := usageMessage_ne_formatMessage
    have h3 := expectedMessage_ne_lodMessage
    have h4 := expectedMessage_ne_formatMessage
    cases hp with
    | usage hlen => omega
    | _ =>
      simp [lodRun, formatRun, logged, parseEvent, factoryEvent, writeEvent, h1, h2, h3, h4]

/-- C4, on an argument vector with the input path and output name only. -/
theorem usage_exit_iff_argument_missing_witness :
    ["node", "create-ksplat-flod.js", "scene.ply", "out.ksplat"].length < 5 ∧
      main demoEnv ["node", "create-ksplat-flod.js", "scene.ply", "out.ksplat"] =
        { trace := [.log expectedMessage, .log usageMessage], outcome := .exit 1 } ∧
      usageMessage ∉ logged (main demoEnv requiredArgv).trace :=
  ⟨by decide,
    ((usage_exit_iff_argument_missing demoEnv
      ["node", "create-ksplat-flod.js", "scene.ply", "out.ksplat"]).1 (by decide)).1,
    ((usage_exit_iff_argument_missing demoEnv requiredArgv).2 (by decide)).1⟩

/-- C3: with the three required arguments present and a LOD argument that `parseInt` reads as
an integer `n` below 1 or above 4, the run is exactly: print the LOD-range message, exit with
code 1. No file is read, no parser, factory or generator is called, nothing is written. -/
theorem lod_out_of_range_exit (env : Env F V A) (argv : List String) (n : Int)
    (hlen : 5 ≤ argv.length) (hparse : (parseInt (arg argv 4)).toInt? = some n)
    (hrange : n < 1 ∨ 4 < n) :
    main env argv = { trace := [.log lodMessage], outcome := .exit 1 } := by
  have hlod : lodOutOfRange (parseInt (arg argv 4)) = true := by
    cases hx : parseInt (arg argv 4) with
    | nan => simp [hx, JSNumber.toInt?] at hparse
    | inf neg => simp [hx, JSNumber.toInt?] at hparse
    | fin neg mag =>
      rw [hx] at hparse
      cases neg <;>
        simp only [JSNumber.toInt?, Option.some.injEq] at hparse <;>
        simp [lodOutOfRange, JSNumber.lt, JSNumber.gt, JSNumber.ofNat] <;> omega
  rw [main_of_lod env argv hlen hlod]
  rfl

/-- C3, on the LOD arguments 5 and 0. -/
theorem lod_out_of_range_exit_witness :
    main demoEnv ["node", "create-ksplat-flod.js", "scene.ply", "out.ksplat", "5"] =
        { trace := [.log lodMessage], outcome := .exit 1 } ∧
      main demoEnv ["node", "create-ksplat-flod.js", "scene.ply", "out.ksplat", "0"] =
        { trace := [.log lodMessage], outcome := .exit 1 } :=
  ⟨lod_out_of_range_exit demoEnv
      ["node", "create-ksplat-flod.js", "scene.ply", "out.ksplat", "5"] 5 (by decide)
      (by decide) (by decide),
    lod_out_of_range_exit demoEnv
      ["node", "create-ksplat-flod.js", "scene.ply", "out.ksplat", "0"] 0 (by decide)
      (by decide) (by decide)⟩

/-- C5: when the argument-count and LOD checks pass and the input file is read, the parser is
called if and only if the input path, lower-cased and trimmed, ends with `.ply`; otherwise the
run is exactly: the read, the format message, exit with code 1. -/
theorem extension_gate (env : Env F V A) (argv : List String) (fileData : NodeBuffer)
    (hlen : 5 ≤ argv.length) (hlod : lodOutOfRange (parseInt (arg argv 4)) = false)
    (hread : env.readFileSync (arg argv 2) = .ok fileData) :
    (parserCalls (main env argv).trace ≠ [] ↔
      endsWith (trim (env.toLowerCase (arg argv 2))) ".ply" = true) ∧
    (endsWith (trim (env.toLowerCase (arg argv 2))) ".ply" = false →
      main env argv =
        { trace := [.readFileSync (arg argv 2), .log formatMessage], outcome := .exit 1 }) := by
  have hp := main_path env argv
  generalize main env argv = r at hp ⊢
  cases hp with
  | usage h => omega
  | lod _ h => rw [h] at hlod; cases hlod
  | readError e _ _ h => rw [h] at hread; cases hread
  | format fd _ _ _ hext => simp [formatRun, parserCalls, hext]
  | _ => simp_all [parserCalls, parseEvent]

/-- C5, on a path that needs both the lower-casing and the trimming. -/
theorem extension_gate_witness :
    parserCalls
        (main demoEnv ["node", "create-ksplat-flod.js", "Scene.PLY ", "out.ksplat", "3"]).trace
      ≠ [] :=
  (extension_gate demoEnv ["node", "create-ksplat-flod.js", "Scene.PLY ", "out.ksplat", "3"]
    { buffer := [112, 108, 121], byteOffset := 0, length := 3 } (by decide) (by decide)
    rfl).1.2 (by decide)

/-- C6, as stated, fails: on a readable input whose path does not end with `.ply` the run
ends with a validation message and exit code 1, and the input file has been read before. -/
theorem format_error_follows_read :
    (main demoEnv ["node", "create-ksplat-flod.js", "notes.txt", "out.ksplat", "2"]).outcome
        = .exit 1 ∧
      logged
          (main demoEnv ["node", "create-ksplat-flod.js", "notes.txt", "out.ksplat", "2"]).trace
        = [formatMessage] ∧
      readCalls
          (main demoEnv ["node", "create-ksplat-flod.js", "notes.txt", "out.ksplat", "2"]).trace
        = ["notes.txt"] := by
  decide

/-- C6, amended: a run that ends with `process.exit(1)` has called neither the parser, nor the
factory, nor the generator, and has written nothing; it has printed the usage lines, the LOD
message or the format message; on the usage lines and the LOD message no file has been read,
on the format message the input file has been read, once. -/
theorem validation_exit_precedes_processing (env : Env F V A) (argv : List String)
    (hexit : (main env argv).outcome = .exit 1) :
    parserCalls (main env argv).trace = [] ∧ factoryCalls (main env argv).trace = [] ∧
      generateCalls (main env argv).trace = [] ∧ writeCalls (main env argv).trace = [] ∧
      ((logged (main env argv).trace = [expectedMessage, usageMessage] ∧
          readCalls (main env argv).trace = []) ∨
        (logged (main env argv).trace = [lodMessage] ∧
          readCalls (main env argv).trace = []) ∨
        (logged (main env argv).trace = [formatMessage] ∧
          readCalls (main env argv).trace = [arg argv 2])) := by
  have hp := main_path env argv
  generalize main env argv = r at hp hexit ⊢
  cases hp with
  | usage h =>
    simp [usageRun, parserCalls, factoryCalls, generateCalls, writeCalls, logged, readCalls]
  | lod _ h =>
    simp [lodRun, parserCalls, factoryCalls, generateCalls, writeCalls, logged, readCalls]
  | format fd _ _ _ hext =>
    simp [formatRun, parserCalls, factoryCalls, generateCalls, writeCalls, logged, readCalls,
      formatMessage_ne_lodMessage]
  | written fd sa g sb _ _ _ _ _ _ _ =>
    exfalso
    simp only [writeOutcome] at hexit
    split at hexit <;> cases hexit
  | _ => cases hexit

/-- C6 amended, on the format error. -/
theorem validation_exit_precedes_processing_witness :
    (main demoEnv ["node", "create-ksplat-flod.js", "notes.txt", "out.ksplat", "2"]).outcome
        = .exit 1 ∧
      parserCalls
          (main demoEnv ["node", "create-ksplat-flod.js", "notes.txt", "out.ksplat", "2"]).trace
        = [] ∧
      writeCalls
          (main demoEnv ["node", "create-ksplat-flod.js", "notes.txt", "out.ksplat", "2"]).trace
        = [] :=
  ⟨by decide,
    (validation_exit_precedes_processing demoEnv
      ["node", "create-ksplat-flod.js", "notes.txt", "out.ksplat", "2"] (by decide)).1,
    (validation_exit_precedes_processing demoEnv
      ["node", "create-ksplat-flod.js", "notes.txt", "out.ksplat", "2"] (by decide)).2.2.2.1⟩

/-- C7, as stated, fails: with the three required arguments only, the parser and the factory
are called, and the spherical-harmonics degree, the alpha removal threshold, the compression
level, the scene center, the block size and the bucket size they receive are all `undefined`,
not 0, 0, 5.0 and 256. -/
theorem defaults_are_not_handed_over :
    parserCalls (main demoEnv requiredArgv).trace =
        [([112, 108, 121], none, JSNumber.ofNat 2)] ∧
      (factoryCalls (main demoEnv requiredArgv).trace).map
          (fun c => (c.alphaRemovalThreshold, c.compressionLevel, c.sceneCenter, c.blockSize,
            c.bucketSize))
        = [(none, none, none, none, none)] ∧
      ¬ (∀ c ∈ factoryCalls (main demoEnv requiredArgv).trace,
          c.compressionLevel = some (JSNumber.ofNat 0) ∧
            c.alphaRemovalThreshold = some (JSNumber.ofNat 0) ∧
            c.bucketSize = some (JSNumber.ofNat 256)) := by
  refine ⟨by decide, rfl, ?_⟩
  intro h
  have h0 := (h ⟨none, none, JSNumber.ofNat 0, none, none, none⟩ (by
    show _ ∈ [_]
    exact List.mem_singleton.mpr rfl)).1
  cases h0

/-- C7, amended: with the three required arguments only, every parser call receives
`undefined` as spherical-harmonics degree, and every factory call receives `undefined` as
alpha removal threshold, compression level, scene center, block size and bucket size, and 0
as section size: the script hands over no default of its own. -/
theorem required_only_hands_undefined (env : Env F V A) (argv : List String)
    (hlen : argv.length = 5) :
    (∀ p ∈ parserCalls (main env argv).trace, p.2.1 = none) ∧
      (∀ c ∈ factoryCalls (main env argv).trace,
        c.alphaRemovalThreshold = none ∧ c.compressionLevel = none ∧
          c.sectionSize = JSNumber.ofNat 0 ∧ c.sceneCenter = none ∧ c.blockSize = none ∧
          c.bucketSize = none) := by
  have hp := main_path env argv
  generalize main env argv = r at hp ⊢
  cases hp <;>
    simp [usageRun, lodRun, formatRun, parserCalls, factoryCalls, parseEvent, factoryEvent,
      writeEvent, readOptions, hlen]

/-- C7 amended, on a run that reaches the parser and the factory. -/
theorem required_only_hands_undefined_witness :
    requiredArgv.length = 5 ∧
      (factoryCalls (main demoEnv requiredArgv).trace).length = 1 ∧
      (∀ c ∈ factoryCalls (main demoEnv requiredArgv).trace,
        c.alphaRemovalThreshold = none ∧ c.compressionLevel = none ∧
          c.sectionSize = JSNumber.ofNat 0 ∧ c.sceneCenter = none ∧ c.blockSize = none ∧
          c.bucketSize = none) :=
  ⟨by decide, by decide, (required_only_hands_undefined demoEnv requiredArgv (by decide)).2⟩

/-- The positions of the command-line values in the calls of a run that passes validation:
the parser is called once, with the `ArrayBuffer` of the `Buffer` that the read of
`process.argv[2]` returned (the bytes of the file only when that `Buffer` spans its
`ArrayBuffer`), `parseInt` of `process.argv[10]` as spherical-harmonics degree and `parseInt`
of `process.argv[4]` as LOD level; if it returns, the factory is called once, with alpha
threshold from `argv[6]`, compression level from `argv[5]`, section size 0, scene center from
`argv[7]`, block size from `argv[8]` and bucket size from `argv[9]`. Each optional value is
present exactly when `argv` has an entry at its position. -/
theorem collaborators_receive_command_line (env : Env F V A) (argv : List String)
    (fileData : NodeBuffer) (hlen : 5 ≤ argv.length)
    (hlod : lodOutOfRange (parseInt (arg argv 4)) = false)
    (hread : env.readFileSync (arg argv 2) = .ok fileData)
    (hext : endsWith (trim (env.toLowerCase (arg argv 2))) ".ply" = true) :
    readCalls (main env argv).trace = [arg argv 2] ∧
      parserCalls (main env argv).trace =
        [(fileData.buffer, argv[10]?.map parseInt, parseInt (arg argv 4))] ∧
      (fileData.byteOffset = 0 → fileData.length = fileData.buffer.length →
        fileData.buffer = fileData.bytes) ∧
      ∀ splatArray : A,
        env.parseToUncompressedSplatArray fileData.buffer (argv[10]?.map parseInt)
            (parseInt (arg argv 4)) = .ok splatArray →
          factoryCalls (main env argv).trace =
            [{ alphaRemovalThreshold := argv[6]?.map parseInt
               compressionLevel := argv[5]?.map parseInt
               sectionSize := JSNumber.ofNat 0
               sceneCenter := argv[7]?.map (fun s => env.vector3FromArray (splitComma s))
               blockSize := argv[8]?.map env.parseFloat
               bucketSize := argv[9]?.map parseInt }] := by
  have o5 := option_of_length parseInt argv 5
  have o6 := option_of_length parseInt argv 6
  have o7 := option_of_length (fun s => env.vector3FromArray (splitComma s)) argv 7
  have o8 := option_of_length env.parseFloat argv 8
  have o9 := option_of_length parseInt argv 9
  have o10 := option_of_length parseInt argv 10
  simp only [Nat.reduceAdd] at o5 o6 o7 o8 o9 o10
  have hp := main_path env argv
  generalize main env argv = r at hp ⊢
  cases hp with
  | usage h => omega
  | lod _ h => rw [h] at hlod; cases hlod
  | readError e _ _ h => rw [h] at hread; cases hread
  | format fd _ _ _ h => rw [h] at hext; cases hext
  | parseError fd e _ _ hr _ hparse =>
    rw [hread] at hr; cases hr
    refine ⟨by simp [readCalls, parseEvent], by simp [parserCalls, parseEvent, readOptions, o10],
      whole_buffer_bytes fileData, ?_⟩
    intro sa hsa
    simp only [parseResult, readOptions, o10] at hparse
    rw [hparse] at hsa; cases hsa
  | factoryError fd sa e _ _ hr _ hparse _ =>
    rw [hread] at hr; cases hr
    exact ⟨by simp [readCalls, parseEvent, factoryEvent],
      by simp [parserCalls, parseEvent, factoryEvent, readOptions, o10], whole_buffer_bytes fileData,
      fun _ _ => by simp [factoryCalls, parseEvent, factoryEvent, readOptions, o5, o6, o7, o8, o9]⟩
  | generateError fd sa g e _ _ hr _ hparse _ _ =>
    rw [hread] at hr; cases hr
    exact ⟨by simp [readCalls, parseEvent, factoryEvent],
      by simp [parserCalls, parseEvent, factoryEvent, readOptions, o10], whole_buffer_bytes fileData,
      fun _ _ => by simp [factoryCalls, parseEvent, factoryEvent, readOptions, o5, o6, o7, o8, o9]⟩
  | written fd sa g sb _ _ hr _ hparse _ _ =>
    rw [hread] at hr; cases hr
    exact ⟨by simp [readCalls, parseEvent, factoryEvent, writeEvent],
      by simp [parserCalls, parseEvent, factoryEvent, writeEvent, readOptions, o10],
      whole_buffer_bytes fileData,
      fun _ _ => by
        simp [factoryCalls, parseEvent, factoryEvent, writeEvent, readOptions, o5, o6, o7, o8,
          o9]⟩

/-- The positions of the command-line values, on the argument vector of the end-to-end
example. -/
theorem collaborators_receive_command_line_witness :
    parserCalls (main demoEnv exampleArgv).trace =
        [([112, 108, 121], some (JSNumber.ofNat 0), JSNumber.ofNat 4)] ∧
      factoryCalls (main demoEnv exampleArgv).trace =
        [{ alphaRemovalThreshold := some (JSNumber.ofNat 0)
           compressionLevel := some (JSNumber.ofNat 1)
           sectionSize := JSNumber.ofNat 0
           sceneCenter := some ["0", "0", "0"]
           blockSize := some (JSNumber.ofNat 5)
           bucketSize := some (JSNumber.ofNat 256) }] :=
  ⟨(collaborators_receive_command_line demoEnv exampleArgv
      { buffer := [112, 108, 121], byteOffset := 0, length := 3 } (by decide) (by decide) rfl
      (by decide)).2.1,
    (collaborators_receive_command_line demoEnv exampleArgv
      { buffer := [112, 108, 121], byteOffset := 0, length := 3 } (by decide) (by decide) rfl
      (by decide)).2.2.2 [112, 108, 121] rfl⟩

/-- C8, the failing input: a `scene.ply` of three bytes is read into a window of the pool, and
the parser is called with `fileData.buffer`, the 8192 bytes of the pool, which are not the
three bytes of the input file. -/
theorem small_file_hands_pool_over :
    pooledEnv.readFileSync (arg requiredArgv 2) = .ok pooledRead ∧
      pooledRead.bytes = [112, 108, 121] ∧
      parserCalls (main pooledEnv requiredArgv).trace =
        [(pooledRead.buffer, none, JSNumber.ofNat 2)] ∧
      pooledRead.buffer.length = 8192 ∧ pooledRead.buffer ≠ pooledRead.bytes := by
  have hbytes : pooledRead.bytes = [112, 108, 121] := by
    show ((List.replicate 1808 0 ++ [112, 108, 121] ++ List.replicate 6381 0).drop 1808).take 3
      = [112, 108, 121]
    rw [List.append_assoc, List.drop_left' (List.length_replicate 1808 0)]
    rfl
  have hlen : pooledRead.buffer.length = 8192 := by
    show (List.replicate 1808 0 ++ [112, 108, 121] ++ List.replicate 6381 0).length = 8192
    rw [List.length_append, List.length_append, List.length_replicate, List.length_replicate]
    rfl
  refine ⟨rfl, hbytes, rfl, hlen, ?_⟩
  intro h
  have h2 := congrArg List.length h
  rw [hlen, hbytes] at h2
  simp at h2

/-- The bytes of `Buffer.from(arrayBuffer)` are the bytes of `arrayBuffer`. -/
theorem bytes_bufferFrom (arrayBuffer : ArrayBuffer) :
    (bufferFrom arrayBuffer).bytes = arrayBuffer := by
  simp [bufferFrom, NodeBuffer.bytes]

/-- C9: a run writes at most once. It writes only if validation passed, the input was read,
the parser, the factory and the generator returned. When all of these hold the trace is
exactly read, parse, factory, generate, write: one write, the last call, to the path
`process.argv[3]`, of the bytes of the `bufferData` of the buffer that
`generateFromUncompressedSplatArray` returned on the parsed splat array. -/
theorem output_written_once_after_assembly (env : Env F V A) (argv : List String) :
    (writeCalls (main env argv).trace).length ≤ 1 ∧
      (writeCalls (main env argv).trace ≠ [] →
        ∃ (fileData : NodeBuffer) (splatArray : A) (generator : Generator A)
          (splatBuffer : SplatBuffer),
          5 ≤ argv.length ∧ lodOutOfRange (parseInt (arg argv 4)) = false ∧
            env.readFileSync (arg argv 2) = .ok fileData ∧
            endsWith (trim (env.toLowerCase (arg argv 2))) ".ply" = true ∧
            parseResult env argv fileData = .ok splatArray ∧
            factoryResult env argv = .ok generator ∧
            generator.generateFromUncompressedSplatArray splatArray = .ok splatBuffer) ∧
      (∀ (fileData : NodeBuffer) (splatArray : A) (generator : Generator A)
          (splatBuffer : SplatBuffer),
          5 ≤ argv.length → lodOutOfRange (parseInt (arg argv 4)) = false →
            env.readFileSync (arg argv 2) = .ok fileData →
            endsWith (trim (env.toLowerCase (arg argv 2))) ".ply" = true →
            parseResult env argv fileData = .ok splatArray →
            factoryResult env argv = .ok generator →
            generator.generateFromUncompressedSplatArray splatArray = .ok splatBuffer →
          (main env argv).trace =
              [.readFileSync (arg argv 2), parseEvent env argv fileData, factoryEvent env argv,
                .generateFromUncompressedSplatArray splatArray,
                .writeFileSync (arg argv 3) (bufferFrom splatBuffer.bufferData)] ∧
            writeCalls (main env argv).trace =
              [(arg argv 3, bufferFrom splatBuffer.bufferData)] ∧
            (bufferFrom splatBuffer.bufferData).bytes = splatBuffer.bufferData) := by
  have hp := main_path env argv
  generalize main env argv = r at hp ⊢
  cases hp with
  | usage h =>
    refine ⟨by simp [usageRun, writeCalls], by simp [usageRun, writeCalls], ?_⟩
    intros; omega
  | lod _ h =>
    refine ⟨by simp [lodRun, writeCalls], by simp [lodRun, writeCalls], ?_⟩
    intro _ _ _ _ _ h'
    rw [h] at h'; cases h'
  | readError e _ _ h =>
    refine ⟨by simp [writeCalls], by simp [writeCalls], ?_⟩
    intro _ _ _ _ _ _ h'
    rw [h] at h'; cases h'
  | format fd _ _ hr h =>
    refine ⟨by simp [formatRun, writeCalls], by simp [formatRun, writeCalls], ?_⟩
    intro _ _ _ _ _ _ _ h'
    rw [h] at h'; cases h'
  | parseError fd e _ _ hr _ h =>
    refine ⟨by simp [writeCalls, parseEvent], by simp [writeCalls, parseEvent], ?_⟩
    intro _ _ _ _ _ _ hr' _ h'
    rw [hr] at hr'; cases hr'
    rw [h] at h'; cases h'
  | factoryError fd sa e _ _ hr _ _ h =>
    refine ⟨by simp [writeCalls, parseEvent, factoryEvent],
      by simp [writeCalls, parseEvent, factoryEvent], ?_⟩
    intro _ _ _ _ _ _ _ _ _ h'
    rw [h] at h'; cases h'
  | generateError fd sa g e _ _ hr _ hpa hf h =>
    refine ⟨by simp [writeCalls, parseEvent, factoryEvent],
      by simp [writeCalls, parseEvent, factoryEvent], ?_⟩
    intro _ _ _ _ _ _ hr' _ hpa' hf' h'
    rw [hr] at hr'; cases hr'
    rw [hpa] at hpa'; cases hpa'
    rw [hf] at hf'; cases hf'
    rw [h] at h'; cases h'
  | written fd sa g sb hlen hlod hr hext hpa hf h =>
    refine ⟨by simp [writeCalls, parseEvent, factoryEvent, writeEvent],
      fun _ => ⟨fd, sa, g, sb, hlen, hlod, hr, hext, hpa, hf, h⟩, ?_⟩
    intro _ _ _ _ _ _ hr' _ hpa' hf' h'
    rw [hr] at hr'; cases hr'
    rw [hpa] at hpa'; cases hpa'
    rw [hf] at hf'; cases hf'
    rw [h] at h'; cases h'
    exact ⟨by simp [writeEvent], by simp [writeCalls, parseEvent, factoryEvent, writeEvent],
      bytes_bufferFrom _⟩

/-- C9, on the argument vector of the end-to-end example: the one write goes to `out.ksplat`
and writes the generated bytes. -/
theorem output_written_once_after_assembly_witness :
    writeCalls (main demoEnv exampleArgv).trace =
        [("out.ksplat", bufferFrom [112, 108, 121])] ∧
      (bufferFrom [112, 108, 121]).bytes = [112, 108, 121] :=
  ((output_written_once_after_assembly demoEnv exampleArgv).2.2
    { buffer := [112, 108, 121], byteOffset := 0, length := 3 } [112, 108, 121]
    { generateFromUncompressedSplatArray := fun a => .ok ⟨a⟩ } ⟨[112, 108, 121]⟩
    (by decide) (by decide) rfl (by decide) rfl rfl rfl).2

/-- C1, as stated, fails: on the argument vector of the end-to-end example, whose alpha
removal threshold argument is the decimal numeral `0.01`, that is 1/100, the factory is
called with the Number 0 as threshold, which is not 1/100. -/
theorem alpha_threshold_fraction_is_dropped :
    arg exampleArgv 6 = "0.01" ∧ decimalNumeral "0.01" = some (1, 2) ∧
      (factoryCalls (main demoEnv exampleArgv).trace).map (fun c => c.alphaRemovalThreshold)
        = [some (JSNumber.fin false 0)] ∧
      (JSNumber.fin false 0).isDecimal 1 2 = false := by
  refine ⟨by decide, by decide, rfl, by decide⟩

/-- C1, amended: when an alpha removal threshold argument is supplied, every factory call
receives `parseInt` of it as threshold: for an argument written as an unsigned integer
numeral `n` below `2^53` the Number `n` itself, and for `0.01` the Number 0. -/
theorem alpha_threshold_is_parseInt (env : Env F V A) (argv : List String)
    (hlen : 7 ≤ argv.length) :
    (∀ c ∈ factoryCalls (main env argv).trace,
        c.alphaRemovalThreshold = some (parseInt (arg argv 6))) ∧
      (∀ n : Nat, decimalNumeral (arg argv 6) = some (n, 0) → n < 2 ^ 53 →
        ∀ c ∈ factoryCalls (main env argv).trace,
          c.alphaRemovalThreshold = some (JSNumber.fin false n)) ∧
      parseInt "0.01" = JSNumber.fin false 0 := by
  have hall : ∀ c ∈ factoryCalls (main env argv).trace,
      c.alphaRemovalThreshold = some (parseInt (arg argv 6)) := by
    have hp := main_path env argv
    generalize main env argv = r at hp ⊢
    cases hp <;>
      simp [usageRun, lodRun, formatRun, factoryCalls, parseEvent, factoryEvent, writeEvent,
        readOptions, hlen]
  refine ⟨hall, ?_, by decide⟩
  intro n hnum hn c hc
  rw [hall c hc, parseInt_of_numeral _ n hnum hn]

/-- C1 amended, on an integer threshold: the factory receives the Number 1. -/
theorem alpha_threshold_is_parseInt_witness :
    (factoryCalls
        (main demoEnv
          ["node", "create-ksplat-flod.js", "scene.ply", "out.ksplat", "4", "1", "1"]).trace).length
        = 1 ∧
      ∀ c ∈ factoryCalls
          (main demoEnv
            ["node", "create-ksplat-flod.js", "scene.ply", "out.ksplat", "4", "1", "1"]).trace,
        c.alphaRemovalThreshold = some (JSNumber.fin false 1) :=
  ⟨by decide,
    (alpha_threshold_is_parseInt demoEnv
      ["node", "create-ksplat-flod.js", "scene.ply", "out.ksplat", "4", "1", "1"]
      (by decide)).2.1 1 (by decide) (by decide)⟩

/-- C2, the failing input: with the LOD argument `abc`, `parseInt` returns `NaN`, the test of
line 24 is false, and the parser is called with `NaN` as LOD level. -/
theorem nan_lod_passes_validation :
    parseInt "abc" = JSNumber.nan ∧ lodOutOfRange JSNumber.nan = false ∧
      parserCalls
          (main demoEnv ["node", "create-ksplat-flod.js", "scene.ply", "out.ksplat", "abc"]).trace
        = [([112, 108, 121], none, JSNumber.nan)] ∧
      parserCalls
          (main demoEnv ["node", "create-ksplat-flod.js", "scene.ply", "out.ksplat", ""]).trace
        = [([112, 108, 121], none, JSNumber.nan)] := by
  decide

end ScriptClaims




/-! ## `findImporters` -/

section Explorer

theorem startsWithList_iff (hay needle : List Char) :
    startsWithList hay needle = true ↔ ∃ t, needle ++ t = hay := by
  induction hay generalizing needle with
  | nil =>
    cases needle with
    | nil => simp [startsWithList]
    | cons n ns => simp [startsWithList]
  | cons h hs ih =>
    cases needle with
    | nil => simp [startsWithList]
    | cons n ns =>
      simp only [startsWithList, Bool.and_eq_true, beq_iff_eq, ih, List.cons_append,
        List.cons.injEq]
      constructor
      · rintro ⟨rfl, t, rfl⟩
        exact ⟨t, rfl, rfl⟩
      · rintro ⟨t, rfl, rfl⟩
        exact ⟨rfl, t, rfl⟩

theorem includesList_iff (hay needle : List Char) :
    includesList hay needle = true ↔ ∃ s t, s ++ needle ++ t = hay := by
  induction hay with
  | nil =>
    cases needle with
    | nil => simp [includesList]
    | cons n ns => simp [includesList]
  | cons h hs ih =>
    simp only [includesList, Bool.or_eq_true, startsWithList_iff, ih]
    constructor
    · rintro (⟨t, ht⟩ | ⟨s, t, ht⟩)
      · exact ⟨[], t, by simpa using ht⟩
      · exact ⟨h :: s, t, by simp [← ht]⟩
    · rintro ⟨s, t, ht⟩
      cases s with
      | nil => exact Or.inl ⟨t, by simpa using ht⟩
      | cons a s =>
        simp only [List.cons_append, List.cons.injEq] at ht
        exact Or.inr ⟨s, t, ht.2⟩

theorem findImporters_foldl (moduleName : String) (imports : ImportMap) (acc : List String) :
    imports.foldl
        (fun importers entry =>
          if entry.2.any (fun imp => includes imp moduleName) then importers ++ [entry.1]
          else importers)
        acc =
      acc ++ (imports.filter
        (fun entry => entry.2.any (fun imp => includes imp moduleName))).map Prod.fst := by
  induction imports generalizing acc with
  | nil => simp
  | cons entry rest ih =>
    simp only [List.foldl_cons, ih]
    by_cases h : entry.2.any (fun imp => includes imp moduleName) = true
    · simp [h, List.filter_cons]
    · simp [h, List.filter_cons]

theorem findImporters_eq_filter (imports : ImportMap) (moduleName : String) :
    findImporters imports moduleName =
      (imports.filter
        (fun entry => entry.2.any (fun imp => includes imp moduleName))).map Prod.fst := by
  unfold findImporters
  rw [findImporters_foldl]
  rfl

theorem keys_mapSet (imports : ImportMap) (key : String) (value : List String) :
    (mapSet imports key value).map Prod.fst =
      if key ∈ imports.map Prod.fst then imports.map Prod.fst
      else imports.map Prod.fst ++ [key] := by
  induction imports with
  | nil => simp [mapSet]
  | cons entry rest ih =>
    obtain ⟨k, v⟩ := entry
    by_cases hk : k = key
    · simp [mapSet, hk]
    · have hk' : ¬ key = k := fun h => hk h.symm
      by_cases hmem : key ∈ rest.map Prod.fst
      · simp only [mapSet, hk, if_false, List.map_cons, ih, if_pos hmem, List.mem_cons, hmem,
          or_true, if_true]
      · simp only [mapSet, hk, if_false, List.map_cons, ih, if_neg hmem, List.mem_cons, hk',
          hmem, or_self, List.cons_append]

theorem nodup_keys_mapSet (imports : ImportMap) (key : String) (value : List String)
    (h : (imports.map Prod.fst).Nodup) : ((mapSet imports key value).map Prod.fst).Nodup := by
  rw [keys_mapSet]
  split
  · exact h
  · rename_i hk
    rw [List.nodup_append]
    exact ⟨h, List.nodup_singleton key, by simpa using hk⟩

theorem nodup_keys_scanFile (rx : ImportRegex) (imports : ImportMap)
    (relativePath content : String) (h : (imports.map Prod.fst).Nodup) :
    ((scanFile rx imports relativePath content).map Prod.fst).Nodup := by
  unfold scanFile
  split
  · exact h
  · exact nodup_keys_mapSet _ _ _ h

theorem nodup_keys_foldl (rx : ImportRegex) (files : List (String × String))
    (imports : ImportMap) (h : (imports.map Prod.fst).Nodup) :
    ((files.foldl (fun imports file => scanFile rx imports file.1 file.2) imports).map
      Prod.fst).Nodup := by
  induction files generalizing imports with
  | nil => exact h
  | cons file rest ih => exact ih _ (nodup_keys_scanFile rx imports file.1 file.2 h)

theorem nodup_keys_scanCodebase (rx : ImportRegex) (files : List (String × String)) :
    ((scanCodebase rx files).map Prod.fst).Nodup :=
  nodup_keys_foldl rx files [] (by simp)

/-- C10, the failing input: a file whose only import is `./DropInViewer.js` is returned for
the module names `Viewer` and `Viewer.js`, although that specifier is neither of them nor a
path whose last segment is one of them. -/
theorem findImporters_returns_longer_name :
    findImporters [("index.js", ["./DropInViewer.js"])] "Viewer" = ["index.js"] ∧
      denotesModule "./DropInViewer.js" "Viewer" = false ∧
      findImporters [("index.js", ["./DropInViewer.js"])] "Viewer.js" = ["index.js"] ∧
      denotesModule "./DropInViewer.js" "Viewer.js" = false := by
  decide

/-- What line 101 computes: after a scan, `findImporters(moduleName)` returns the files one
of whose recorded import specifiers contains `moduleName` as a substring, each of them once. -/
theorem findImporters_iff_substring (rx : ImportRegex) (files : List (String × String))
    (moduleName : String) :
    (∀ file : String,
        file ∈ findImporters (scanCodebase rx files) moduleName ↔
          ∃ imps, (file, imps) ∈ scanCodebase rx files ∧
            ∃ imp ∈ imps, ∃ s t, s ++ moduleName.data ++ t = imp.data) ∧
      (findImporters (scanCodebase rx files) moduleName).Nodup := by
  constructor
  · intro file
    rw [findImporters_eq_filter]
    simp only [List.mem_map, List.mem_filter, List.any_eq_true, includes, includesList_iff,
      Prod.exists, exists_and_right, exists_eq_right]
  · rw [findImporters_eq_filter]
    exact ((List.filter_sublist _).map Prod.fst).nodup (nodup_keys_scanCodebase rx files)

end Explorer

end FLoD
